import Mathlib

/-!
A shallow embedding of the mssql_mcp_server repository
(src/mssql_mcp_server/server.py and src/mssql_mcp_server/server_jumbos.py).

Pure helpers (validate_table_name, the row formatting) become Lean
functions; get_db_config reads an explicit environment record; the pymssql
driver is an abstract oracle (Db) saying whether connect raises and what
one executed statement yields.  Each exposed operation returns an OpRun:
the Python return value (`Except.ok s` for an ordinary string result,
`Except.error e` for an exception escaping the operation body) together
with a trace of what happened to the connection on that run.
-/

/-- Python scalar values as they appear in result rows. -/
inductive PyVal where
  | int (n : Int)
  | str (s : String)
  | null
  | bool (b : Bool)
deriving DecidableEq, Repr

/-- Python str() on a scalar value. -/
def pyStr : PyVal → String
  | .int n => toString n
  | .str s => s
  | .null => "None"
  | .bool b => if b then "True" else "False"

/-- The Python exceptions the two source files raise or catch. -/
inductive PyErr where
  | valueError (msg : String)
  | typeError (msg : String)
  | dbError (msg : String)
deriving DecidableEq, Repr

/-- Python str(e) on a caught exception: its message. -/
def pyErrStr : PyErr → String
  | .valueError m => m
  | .typeError m => m
  | .dbError m => m

/-- ASCII decimal digit, as accepted by Python int(). -/
def isPyDigit (c : Char) : Bool := '0' ≤ c && c ≤ '9'

def pyDigitVal (c : Char) : Nat := c.toNat - '0'.toNat

/-- Digits of a Python int literal after its first digit: a single underscore
may stand between two digits. -/
def pyDigitsRest (acc : Nat) : List Char → Option Nat
  | [] => some acc
  | '_' :: c :: cs =>
    if isPyDigit c then pyDigitsRest (acc * 10 + pyDigitVal c) cs else Option.none
  | c :: cs =>
    if isPyDigit c then pyDigitsRest (acc * 10 + pyDigitVal c) cs else Option.none

/-- Model of Python int(s) after whitespace stripping: optional sign, then
decimal digits (with optional underscores between digits). -/
def pyIntCore : List Char → Option Int
  | '+' :: c :: cs =>
    if isPyDigit c then (pyDigitsRest (pyDigitVal c) cs).map Int.ofNat else Option.none
  | '-' :: c :: cs =>
    if isPyDigit c then (pyDigitsRest (pyDigitVal c) cs).map (fun n => -(n : Int)) else Option.none
  | c :: cs =>
    if isPyDigit c then (pyDigitsRest (pyDigitVal c) cs).map Int.ofNat else Option.none
  | [] => Option.none

/-- ASCII whitespace stripped by Python int() and str.strip. -/
def isPySpace (c : Char) : Bool :=
  c = ' ' ∨ c = '\t' ∨ c = '\n' ∨ c = '\r' ∨ c = Char.ofNat 11 ∨ c = Char.ofNat 12

/-- Leading and trailing whitespace removed, as Python does before int(). -/
def pyStrip (cs : List Char) : List Char :=
  ((cs.dropWhile isPySpace).reverse.dropWhile isPySpace).reverse

/-- Model of Python int(s) on a string. -/
def pyInt (s : String) : Option Int := pyIntCore (pyStrip s.toList)

/-- Whether the list starts with the given pattern (Python str.startswith). -/
def listStartsWith : List Char → List Char → Bool
  | _, [] => true
  | [], _ :: _ => false
  | c :: cs, p :: ps => c == p && listStartsWith cs ps

/-- Python str.replace: every non-overlapping occurrence of a non-empty
pattern replaced left to right (fuel makes the recursion structural). -/
def replaceAllFuel (pat rep : List Char) : Nat → List Char → List Char
  | _, [] => []
  | 0, s => s
  | fuel + 1, c :: cs =>
    if pat ≠ [] ∧ listStartsWith (c :: cs) pat = true then
      rep ++ replaceAllFuel pat rep fuel (List.drop (pat.length - 1) cs)
    else c :: replaceAllFuel pat rep fuel cs

/-- Python str.replace on strings. -/
def pyReplace (s pat rep : String) : String :=
  String.mk (replaceAllFuel pat.toList rep.toList s.toList.length s.toList)

/-- ASCII lowercasing of one character (Python str.lower on the inputs the
configuration compares). -/
def pyLowerChar (c : Char) : Char :=
  if 'A' ≤ c ∧ c ≤ 'Z' then Char.ofNat (c.toNat + 32) else c

/-- Python str.lower. -/
def pyLower (s : String) : String := String.mk (s.toList.map pyLowerChar)

/-- The environment variables read by get_db_config; none means unset. -/
structure Env where
  MSSQL_SERVER : Option String := Option.none
  MSSQL_USER : Option String := Option.none
  MSSQL_PASSWORD : Option String := Option.none
  MSSQL_DATABASE : Option String := Option.none
  MSSQL_PORT : Option String := Option.none
  MSSQL_WINDOWS_AUTH : Option String := Option.none
  MSSQL_ENCRYPT : Option String := Option.none
deriving DecidableEq, Repr

/-- The configuration dictionary get_db_config returns: user/password are
`none` exactly when the keys were popped (Windows-auth branch). -/
structure DbConfig where
  server : String
  user : Option String
  password : Option String
  database : String
  port : Int
deriving DecidableEq, Repr

/-- os.getenv("MSSQL_WINDOWS_AUTH", "false").lower() == "true". -/
def useWindowsAuth (env : Env) : Bool :=
  pyLower (env.MSSQL_WINDOWS_AUTH.getD "false") == "true"

/-- The server lines of get_db_config: default "localhost", and the
LocalDB special case rewriting "(localdb)\\<instance>" to ".\\<instance>". -/
def resolveServer (env : Env) : String :=
  let server0 := env.MSSQL_SERVER.getD "localhost"
  if listStartsWith server0.toList "(localdb)\\".toList then
    ".\\" ++ pyReplace server0 "(localdb)\\" ""
  else server0

/-- Embedding of get_db_config (the function is identical in server.py and
server_jumbos.py).  The port is int()-converted while the dictionary is
built, before either auth branch checks its required variables; both
failure branches raise ValueError with the same message. -/
def get_db_config (env : Env) : Except PyErr DbConfig :=
  let server := resolveServer env
  let portStr := env.MSSQL_PORT.getD "1433"
  match pyInt portStr with
  | Option.none =>
    .error (.valueError ("invalid literal for int() with base 10: '" ++ portStr ++ "'"))
  | some port =>
    if useWindowsAuth env then
      match env.MSSQL_DATABASE with
      | some db =>
        if db = "" then .error (.valueError "Missing required database configuration")
        else .ok { server := server, user := Option.none, password := Option.none,
                   database := db, port := port }
      | Option.none => .error (.valueError "Missing required database configuration")
    else
      match env.MSSQL_USER, env.MSSQL_PASSWORD, env.MSSQL_DATABASE with
      | some u, some p, some db =>
        if u = "" ∨ p = "" ∨ db = "" then
          .error (.valueError "Missing required database configuration")
        else .ok { server := server, user := some u, password := some p,
                   database := db, port := port }
      | _, _, _ => .error (.valueError "Missing required database configuration")

/-- The regex character class [a-zA-Z0-9_]. -/
def isWordChar (c : Char) : Bool :=
  ('a' ≤ c && c ≤ 'z') || ('A' ≤ c && c ≤ 'Z') || ('0' ≤ c && c ≤ '9') || c == '_'

/-- Regex tail w*$ : zero or more word characters up to the end. -/
def matchWordStar : List Char → Bool
  | [] => true
  | c :: cs => isWordChar c && matchWordStar cs

/-- Regex tail w+$ : the second dot-separated segment of the pattern. -/
def matchSecondSeg : List Char → Bool
  | [] => false
  | c :: cs => isWordChar c && matchWordStar cs

/-- Regex tail after the pattern's first word character: w*(\.w+)?$. -/
def matchAfterFirst : List Char → Bool
  | [] => true
  | c :: cs =>
    if isWordChar c then matchAfterFirst cs
    else if c = '.' then matchSecondSeg cs
    else false

/-- The whole pattern [a-zA-Z0-9_]+(\.[a-zA-Z0-9_]+)? against a whole list. -/
def matchTableCore : List Char → Bool
  | [] => false
  | c :: cs => isWordChar c && matchAfterFirst cs

/-- Python re gives a final `$` in a pattern the meaning: end of the string,
or just before one newline that ends the string.  So a match may leave a
single final newline unconsumed. -/
def dropTrailingNewline : List Char → List Char
  | [] => []
  | [c] => if c = '\n' then [] else [c]
  | c :: d :: ds => c :: dropTrailingNewline (d :: ds)

/-- Embedding of re.match against the table-name pattern of both source
files (anchored at the start by re.match, `$` per Python semantics). -/
def pyMatchTableName (s : String) : Bool :=
  matchTableCore (dropTrailingNewline s.toList)

/-- Python str.split on the one-character separator ".", on char lists. -/
def splitOnDot : List Char → List (List Char)
  | [] => [[]]
  | c :: cs =>
    if c = '.' then [] :: splitOnDot cs
    else
      match splitOnDot cs with
      | [] => [[c]]
      | g :: gs => (c :: g) :: gs

/-- Python table_name.split(".") as strings. -/
def pySplitDot (s : String) : List String :=
  (splitOnDot s.toList).map (fun cs => String.mk cs)

/-- Embedding of validate_table_name (identical in both source files):
ValueError on a failed regex match, else bracket-quote: two dot-split parts
give "[schema].[object]", otherwise the whole name is bracketed. -/
def validate_table_name (table_name : String) : Except PyErr String :=
  if !pyMatchTableName table_name then
    .error (.valueError ("Invalid table name: " ++ table_name))
  else
    match pySplitDot table_name with
    | [a, b] => .ok ("[" ++ a ++ "].[" ++ b ++ "]")
    | _ => .ok ("[" ++ table_name ++ "]")

/-- Python sep.join(xs). -/
def joinStr (sep : String) : List String → String
  | [] => ""
  | [x] => x
  | x :: xs => x ++ sep ++ joinStr sep xs

/-- The row serialization the operations share:
"\n".join([",".join(columns)] + [",".join(map(str, row)) for row in rows]). -/
def formatRows (columns : List String) (rows : List (List PyVal)) : String :=
  joinStr "\n" ([joinStr "," columns] ++ rows.map (fun row => joinStr "," (row.map pyStr)))

/-- What the pymssql cursor holds after execute and fetch: the column
description (Option.none models a non-SELECT cursor's None), the fetched
rows, and the driver rowcount. -/
structure QueryResult where
  description : Option (List String)
  rows : List (List PyVal)
  rowcount : Int
deriving DecidableEq, Repr

/-- Outcome of handing one statement to the driver. -/
inductive ExecOutcome where
  | raises (e : PyErr)
  | result (q : QueryResult)
deriving DecidableEq, Repr

/-- The abstract pymssql driver: whether connect raises for a given config,
and the outcome of executing one (sql, parameters) statement. -/
structure Db where
  connectErr : DbConfig → Option PyErr
  exec : String → List PyVal → ExecOutcome

/-- What one operation run did with its connection. -/
structure OpTrace where
  connectAttempted : Bool := false
  connOpened : Bool := false
  cursorClosed : Bool := false
  connClosed : Bool := false
  executed : Option (String × List PyVal) := Option.none
deriving DecidableEq, Repr

/-- Decidable equality for Except, so concrete operation runs evaluate. -/
def exceptDecEq {ε α : Type} [DecidableEq ε] [DecidableEq α] : DecidableEq (Except ε α)
  | .error e, .error f =>
    if h : e = f then .isTrue (by rw [h]) else .isFalse (by intro hh; cases hh; exact h rfl)
  | .error _, .ok _ => .isFalse (by intro h; cases h)
  | .ok _, .error _ => .isFalse (by intro h; cases h)
  | .ok a, .ok b =>
    if h : a = b then .isTrue (by rw [h]) else .isFalse (by intro hh; cases hh; exact h rfl)

instance {ε α : Type} [DecidableEq ε] [DecidableEq α] : DecidableEq (Except ε α) := exceptDecEq

/-- One operation run: the Python return value (.ok) or the exception
escaping the operation body (.error), plus the connection trace. -/
structure OpRun where
  result : Except PyErr String
  trace : OpTrace
deriving DecidableEq, Repr

/-- Trace after a successful connect whose statement (or fetch) raised:
nothing was closed, the except-branch returns directly. -/
def traceOpenedOn (stmt : String) (ps : List PyVal) : OpTrace :=
  { connectAttempted := true, connOpened := true, executed := some (stmt, ps) }

/-- Trace after the full connect, execute, cursor.close, conn.close run. -/
def traceClosedOn (stmt : String) (ps : List PyVal) : OpTrace :=
  { connectAttempted := true, connOpened := true, cursorClosed := true,
    connClosed := true, executed := some (stmt, ps) }

/-- Embedding of execute_sql (identical in both source files).  get_db_config
runs before the try block, so its exception escapes the operation; anything
raised inside the try is stringified. -/
def execute_sql (env : Env) (db : Db) (query : String) : OpRun :=
  match get_db_config env with
  | .error e => { result := .error e, trace := {} }
  | .ok config =>
    match db.connectErr config with
    | some e =>
      { result := .ok ("Error executing query: " ++ pyErrStr e),
        trace := { connectAttempted := true } }
    | Option.none =>
      match db.exec query [] with
      | .raises e =>
        { result := .ok ("Error executing query: " ++ pyErrStr e),
          trace := traceOpenedOn query [] }
      | .result q =>
        let output :=
          match q.description with
          | some (c :: cols) => formatRows (c :: cols) q.rows
          | some [] => "Query executed successfully. Rows affected: " ++ toString q.rowcount
          | Option.none => "Query executed successfully. Rows affected: " ++ toString q.rowcount
        { result := .ok output, trace := traceClosedOn query [] }

/-- The fixed report statement of report_trial_balance_by_seg_ref. -/
def trialBalanceQuery : String :=
  "\n    WITH TransactionData AS (\n        SELECT \n            je.transaction_date AS [Date],\n            je.journal_entry_id AS [Journal Entry],\n            je.source_document_type AS [Doc. Type],\n            je.source_document_id AS [Source Doc ID],\n            jed.reference_number AS [Reference #],\n            jed.source_reference_number AS [Source Ref #],\n            jed.description AS [Description],\n            je.backdated AS [Backdated],\n            CASE WHEN jed.amount > 0 THEN jed.amount ELSE 0 END AS [Debits],\n            CASE WHEN jed.amount < 0 THEN ABS(jed.amount) ELSE 0 END AS [Credits]\n        FROM [Prologue90].[dbo].[gl_journal_entry] je\n        INNER JOIN [Prologue90].[dbo].[gl_journal_entry_detail] jed\n            ON je.journal_entry_id = jed.journal_entry_id\n        WHERE \n            je.transaction_date BETWEEN %s AND %s\n            AND jed.account_id LIKE %s\n    )\n    SELECT \n        [Date],\n        [Journal Entry],\n        [Doc. Type],\n        [Source Doc ID],\n        [Reference #],\n        [Source Ref #],\n        [Description],\n        [Backdated],\n        [Debits],\n        [Credits],\n        SUM([Debits] - [Credits]) OVER (ORDER BY [Date], [Journal Entry]) AS [Ending Balance]\n    FROM TransactionData\n    ORDER BY [Date], [Journal Entry];\n    "

/-- Embedding of report_trial_balance_by_seg_ref (server.py).  Its except
branch prefixes "Error: "; the column description is read unconditionally,
and closing only happens on the fully successful path. -/
def report_trial_balance_by_seg_ref (env : Env) (db : Db)
    (start_date end_date account_id : String) : OpRun :=
  match get_db_config env with
  | .error e => { result := .error e, trace := {} }
  | .ok config =>
    match db.connectErr config with
    | some e =>
      { result := .ok ("Error: " ++ pyErrStr e), trace := { connectAttempted := true } }
    | Option.none =>
      match db.exec trialBalanceQuery
          [PyVal.str start_date, PyVal.str end_date, PyVal.str account_id] with
      | .raises e =>
        { result := .ok ("Error: " ++ pyErrStr e)
          trace := traceOpenedOn trialBalanceQuery
            [PyVal.str start_date, PyVal.str end_date, PyVal.str account_id] }
      | .result q =>
        match q.description with
        | Option.none =>
          { result := .ok ("Error: 'NoneType' object is not iterable")
            trace := traceOpenedOn trialBalanceQuery
              [PyVal.str start_date, PyVal.str end_date, PyVal.str account_id] }
        | some cols =>
          { result := .ok (formatRows cols q.rows)
            trace := traceClosedOn trialBalanceQuery
              [PyVal.str start_date, PyVal.str end_date, PyVal.str account_id] }

/-- The argument year : Union[str, int] of count_user_logins. -/
inductive YearArg where
  | int (n : Int)
  | str (s : String)
deriving DecidableEq, Repr

/-- The operation's first line, year = str(year). -/
def yearArgStr : YearArg → String
  | .int n => toString n
  | .str s => s

/-- The fixed statement of count_user_logins (identical in both files). -/
def countUserLoginsSql : String :=
  "\n    SELECT COUNT(*) AS appearances\n    FROM am_user_security_log\n    WHERE user_id = %s\n    AND YEAR(date_time) = %s;\n    "

/-- Embedding of count_user_logins (identical in both source files).
fetchone()[0] on an empty result raises inside the try; the success path
closes cursor and connection and formats the count. -/
def count_user_logins (env : Env) (db : Db) (user_id : String) (year : YearArg) : OpRun :=
  let yearS := yearArgStr year
  match get_db_config env with
  | .error e => { result := .error e, trace := {} }
  | .ok config =>
    match db.connectErr config with
    | some e =>
      { result := .ok ("Error: " ++ pyErrStr e), trace := { connectAttempted := true } }
    | Option.none =>
      match db.exec countUserLoginsSql [PyVal.str user_id, PyVal.str yearS] with
      | .raises e =>
        { result := .ok ("Error: " ++ pyErrStr e)
          trace := traceOpenedOn countUserLoginsSql [PyVal.str user_id, PyVal.str yearS] }
      | .result q =>
        match q.rows.head? with
        | Option.none =>
          { result := .ok ("Error: 'NoneType' object is not subscriptable")
            trace := traceOpenedOn countUserLoginsSql [PyVal.str user_id, PyVal.str yearS] }
        | some row =>
          match row.head? with
          | Option.none =>
            { result := .ok ("Error: tuple index out of range")
              trace := traceOpenedOn countUserLoginsSql [PyVal.str user_id, PyVal.str yearS] }
          | some c =>
            { result := .ok (user_id ++ " appeared " ++ pyStr c ++ " times in " ++ yearS)
              trace := traceClosedOn countUserLoginsSql [PyVal.str user_id, PyVal.str yearS] }

/-- The fixed statement of list_sql_tables (server_jumbos.py). -/
def listTablesSql : String :=
  "\n    SELECT TABLE_SCHEMA, TABLE_NAME\n    FROM INFORMATION_SCHEMA.TABLES\n    WHERE TABLE_TYPE = 'BASE TABLE'\n    ORDER BY TABLE_SCHEMA, TABLE_NAME;\n    "

/-- The loop `for schema, name in tables`: 2-tuple unpacking, failing as
Python does on a row whose length is not 2. -/
def unpackPairs : List (List PyVal) → Except PyErr (List (PyVal × PyVal))
  | [] => .ok []
  | [a, b] :: rest => (unpackPairs rest).map (fun l => (a, b) :: l)
  | row :: _ =>
    if row.length < 2 then
      .error (.valueError
        ("not enough values to unpack (expected 2, got " ++ toString row.length ++ ")"))
    else .error (.valueError "too many values to unpack (expected 2)")

/-- Embedding of list_sql_tables (server_jumbos.py).  The cursor and the
connection are closed before the empty check, so both sentinel and CSV
paths return with everything closed. -/
def list_sql_tables (env : Env) (db : Db) : OpRun :=
  match get_db_config env with
  | .error e => { result := .error e, trace := {} }
  | .ok config =>
    match db.connectErr config with
    | some e =>
      { result := .ok ("Error listing tables: " ++ pyErrStr e),
        trace := { connectAttempted := true } }
    | Option.none =>
      match db.exec listTablesSql [] with
      | .raises e =>
        { result := .ok ("Error listing tables: " ++ pyErrStr e),
          trace := traceOpenedOn listTablesSql [] }
      | .result q =>
        if q.rows.isEmpty then
          { result := .ok "No tables found in this database.",
            trace := traceClosedOn listTablesSql [] }
        else
          match unpackPairs q.rows with
          | .error e =>
            { result := .ok ("Error listing tables: " ++ pyErrStr e),
              trace := traceClosedOn listTablesSql [] }
          | .ok prs =>
            { result := .ok (joinStr "\n"
                ("Schema,Table" :: prs.map (fun p => pyStr p.1 ++ "," ++ pyStr p.2))),
              trace := traceClosedOn listTablesSql [] }

/-- Embedding of read_table_preview (server_jumbos.py).  get_db_config runs
before the try; validate_table_name runs inside the try and before any
connect, so a rejected name is stringified with no connection attempt. -/
def read_table_preview (env : Env) (db : Db) (table_name : String) : OpRun :=
  match get_db_config env with
  | .error e => { result := .error e, trace := {} }
  | .ok config =>
    match validate_table_name table_name with
    | .error e =>
      { result := .ok ("Error reading table '" ++ table_name ++ "': " ++ pyErrStr e),
        trace := {} }
    | .ok safe_table =>
      match db.connectErr config with
      | some e =>
        { result := .ok ("Error reading table '" ++ table_name ++ "': " ++ pyErrStr e),
          trace := { connectAttempted := true } }
      | Option.none =>
        match db.exec ("SELECT TOP 100 * FROM " ++ safe_table) [] with
        | .raises e =>
          { result := .ok ("Error reading table '" ++ table_name ++ "': " ++ pyErrStr e),
            trace := traceOpenedOn ("SELECT TOP 100 * FROM " ++ safe_table) [] }
        | .result q =>
          match q.description with
          | Option.none =>
            { result := .ok
                ("Error reading table '" ++ table_name ++ "': 'NoneType' object is not iterable"),
              trace := traceOpenedOn ("SELECT TOP 100 * FROM " ++ safe_table) [] }
          | some cols =>
            if q.rows.isEmpty then
              { result := .ok "No data found in this table.",
                trace := traceClosedOn ("SELECT TOP 100 * FROM " ++ safe_table) [] }
            else
              { result := .ok (formatRows cols q.rows),
                trace := traceClosedOn ("SELECT TOP 100 * FROM " ++ safe_table) [] }

/-- A nonempty all-word-character segment, as the claimed pattern reads. -/
def wordSeg (cs : List Char) : Bool := !cs.isEmpty && cs.all isWordChar

/-- The claimed pattern with strict end-of-string anchoring: one or exactly
two dot-separated word-character segments. -/
def specTablePattern (cs : List Char) : Bool :=
  match splitOnDot cs with
  | [a] => wordSeg a
  | [a, b] => wordSeg a && wordSeg b
  | _ => false

/-- The string with one final newline removed, if any. -/
def stripTrailingNewline (s : String) : String := String.mk (dropTrailingNewline s.toList)

/-- The claimed pattern, strictly anchored, on a string. -/
def specTableMatch (s : String) : Bool := specTablePattern s.toList

/-- Whether an Except result is a success. -/
def exceptIsOk {ε α : Type} : Except ε α → Bool
  | .ok _ => true
  | .error _ => false

/-- The claimed output form: every dot-separated segment wrapped in brackets
and the segments rejoined with a dot. -/
def specBracketForm (s : String) : String :=
  joinStr "." ((pySplitDot s).map (fun p => "[" ++ p ++ "]"))

/-- The claimed serialization: the comma-joined header, then one comma-joined
line per row appended after a newline each. -/
def specFormat (columns : List String) (rows : List (List PyVal)) : String :=
  (rows.map (fun row => joinStr "," (row.map pyStr))).foldl
    (fun acc line => acc ++ "\n" ++ line) (joinStr "," columns)

/-- Python truthiness of an optional environment string: unset and "" are falsy. -/
def truthy : Option String → Bool
  | Option.none => false
  | some s => !(s == "")

/-- All three credential variables are set and non-empty. -/
def credsPresent (env : Env) : Bool :=
  truthy env.MSSQL_USER && truthy env.MSSQL_PASSWORD && truthy env.MSSQL_DATABASE

/-- Fixture: nothing set in the environment. -/
def envNone : Env := {}

/-- Fixture: a complete credentialed environment. -/
def envCred : Env :=
  { MSSQL_USER := some "sa", MSSQL_PASSWORD := some "pw", MSSQL_DATABASE := some "db" }

/-- The configuration envCred resolves to. -/
def cfgCred : DbConfig :=
  { server := "localhost", user := some "sa", password := some "pw", database := "db", port := 1433 }

/-- Fixture: Windows auth with a database. -/
def envWin : Env := { MSSQL_WINDOWS_AUTH := some "true", MSSQL_DATABASE := some "db" }

/-- The configuration envWin resolves to. -/
def cfgWin : DbConfig :=
  { server := "localhost", user := Option.none, password := Option.none, database := "db", port := 1433 }

/-- Fixture: Windows auth without a database. -/
def envWinNoDb : Env := { MSSQL_WINDOWS_AUTH := some "true" }

/-- Fixture: full credentials with a port far above 65535. -/
def envPortBig : Env :=
  { MSSQL_USER := some "sa", MSSQL_PASSWORD := some "pw", MSSQL_DATABASE := some "db",
    MSSQL_PORT := some "70000" }

/-- Fixture driver: connect succeeds and every statement raises. -/
def dbBoom : Db :=
  { connectErr := fun _ => Option.none, exec := fun _ _ => .raises (.dbError "boom") }

/-- Fixture cursor state: a two-column SELECT with no rows. -/
def qrEmpty : QueryResult := { description := some ["a", "b"], rows := [], rowcount := -1 }

/-- Fixture driver: connect succeeds and every statement yields qrEmpty. -/
def dbEmptySelect : Db :=
  { connectErr := fun _ => Option.none, exec := fun _ _ => .result qrEmpty }

/-- Fixture driver: "SELECT 1" yields qrEmpty, every other statement raises. -/
def dbMixed : Db :=
  { connectErr := fun _ => Option.none,
    exec := fun stmt _ => if stmt = "SELECT 1" then .result qrEmpty else .raises (.dbError "boom") }

/-! Helper lemmas shared by the claim theorems. -/

theorem joinStr_cons_cons (sep x y : String) (l : List String) :
    joinStr sep (x :: y :: l) = joinStr sep ((x ++ sep ++ y) :: l) := by
  cases l with
  | nil => rfl
  | cons z zs => simp [joinStr, String.append_assoc]

theorem joinStr_eq_foldl (sep : String) (l : List String) (a : String) :
    joinStr sep (a :: l) = l.foldl (fun acc x => acc ++ sep ++ x) a := by
  induction l generalizing a with
  | nil => rfl
  | cons x xs ih =>
    rw [joinStr_cons_cons, ih]
    rfl

/-- Claim C6 (confirmed).  The formatted output of a row-producing result set
is the comma-joined column names as first line, then one comma-joined
str()-rendered line per row in order, all joined by newline; on
columns ["a","b"] and rows [[1,2],[3,4]] it is exactly "a,b\n1,2\n3,4". -/
theorem formatRows_spec (columns : List String) (rows : List (List PyVal)) :
    formatRows columns rows = specFormat columns rows ∧
    formatRows ["a", "b"] [[.int 1, .int 2], [.int 3, .int 4]] = "a,b\n1,2\n3,4" := by
  constructor
  · unfold formatRows specFormat
    rw [List.singleton_append]
    exact joinStr_eq_foldl "\n" _ _
  · rfl

/-- Claim C10 (confirmed).  count_user_logins coerces its year argument with
str() on its first line, so an integer year and its decimal-string form
produce identical runs: the same SQL text, the same bound parameters (both
visible in the trace) and the same result string. -/
theorem count_user_logins_year_coercion (env : Env) (db : Db) (user_id : String) (y : Int) :
    count_user_logins env db user_id (.int y) =
      count_user_logins env db user_id (.str (toString y)) := rfl

/-- Claim C1 counterexample.  With no configuration set, every operation's
run ends in a propagating ValueError, not in an error string returned to
the caller. -/
theorem config_error_escapes :
    (execute_sql envNone dbBoom "SELECT 1").result =
      .error (.valueError "Missing required database configuration") ∧
    (report_trial_balance_by_seg_ref envNone dbBoom "2024-01-01" "2024-12-31" "7206%").result =
      .error (.valueError "Missing required database configuration") ∧
    (count_user_logins envNone dbBoom "alice" (.int 2023)).result =
      .error (.valueError "Missing required database configuration") ∧
    (list_sql_tables envNone dbBoom).result =
      .error (.valueError "Missing required database configuration") ∧
    (read_table_preview envNone dbBoom "dbo.tbl").result =
      .error (.valueError "Missing required database configuration") := by
  refine ⟨?_, ?_, ?_, ?_, ?_⟩ <;> decide

/-- Claim C1 (corrected).  get_db_config runs before the try block of every
operation, so when configuration resolution fails its exception escapes the
operation body unchanged and nothing is attempted against the database; no
error string is returned in that case. -/
theorem config_error_propagates (env : Env) (e : PyErr) (db : Db)
    (q sd ed aid uid tn : String) (y : YearArg)
    (h : get_db_config env = .error e) :
    execute_sql env db q = { result := .error e, trace := {} } ∧
    report_trial_balance_by_seg_ref env db sd ed aid = { result := .error e, trace := {} } ∧
    count_user_logins env db uid y = { result := .error e, trace := {} } ∧
    list_sql_tables env db = { result := .error e, trace := {} } ∧
    read_table_preview env db tn = { result := .error e, trace := {} } := by
  refine ⟨?_, ?_, ?_, ?_, ?_⟩ <;>
    simp [execute_sql, report_trial_balance_by_seg_ref, count_user_logins,
      list_sql_tables, read_table_preview, h]

/-- Witness for config_error_propagates at a concrete environment. -/
theorem config_error_propagates_witness :
    execute_sql envNone dbBoom "SELECT 1" =
      { result := .error (.valueError "Missing required database configuration"), trace := {} } ∧
    report_trial_balance_by_seg_ref envNone dbBoom "2024-01-01" "2024-12-31" "7206%" =
      { result := .error (.valueError "Missing required database configuration"), trace := {} } ∧
    count_user_logins envNone dbBoom "alice" (.int 2023) =
      { result := .error (.valueError "Missing required database configuration"), trace := {} } ∧
    list_sql_tables envNone dbBoom =
      { result := .error (.valueError "Missing required database configuration"), trace := {} } ∧
    read_table_preview envNone dbBoom "dbo.tbl" =
      { result := .error (.valueError "Missing required database configuration"), trace := {} } :=
  config_error_propagates envNone (.valueError "Missing required database configuration")
    dbBoom "SELECT 1" "2024-01-01" "2024-12-31" "7206%" "alice" "dbo.tbl" (.int 2023) rfl

/-- Claim C2 counterexample.  With a valid configuration and a statement
that raises, execute_sql returns an error string while the connection it
opened is never closed, nor is its cursor. -/
theorem connection_not_closed_on_raise :
    (execute_sql envCred dbBoom "SELECT 1").result = .ok "Error executing query: boom" ∧
    (execute_sql envCred dbBoom "SELECT 1").trace.connOpened = true ∧
    (execute_sql envCred dbBoom "SELECT 1").trace.connClosed = false ∧
    (execute_sql envCred dbBoom "SELECT 1").trace.cursorClosed = false := by
  refine ⟨?_, ?_, ?_, ?_⟩ <;> decide

/-- Claim C2 (corrected).  The cursor and connection are closed before
returning only on the fully successful path; when execute or fetch raises
after a successful connect, the operation returns an error string and the
connection and cursor are left unclosed (there is no finally or with
block), for execute_sql, the trial-balance report and the table preview. -/
theorem close_only_on_success (env : Env) (cfg : DbConfig) (db : Db)
    (q1 q2 sd ed aid tn st : String) (qr : QueryResult) (e1 e2 e3 : PyErr)
    (hcfg : get_db_config env = .ok cfg) (hconn : db.connectErr cfg = Option.none)
    (hres : db.exec q1 [] = .result qr)
    (hraise : db.exec q2 [] = .raises e1)
    (hrep : db.exec trialBalanceQuery [PyVal.str sd, PyVal.str ed, PyVal.str aid] = .raises e2)
    (hval : validate_table_name tn = .ok st)
    (hprev : db.exec ("SELECT TOP 100 * FROM " ++ st) [] = .raises e3) :
    (execute_sql env db q1).trace.cursorClosed = true ∧
    (execute_sql env db q1).trace.connClosed = true ∧
    (execute_sql env db q2).trace.connOpened = true ∧
    (execute_sql env db q2).trace.cursorClosed = false ∧
    (execute_sql env db q2).trace.connClosed = false ∧
    (execute_sql env db q2).result = .ok ("Error executing query: " ++ pyErrStr e1) ∧
    (report_trial_balance_by_seg_ref env db sd ed aid).trace.connOpened = true ∧
    (report_trial_balance_by_seg_ref env db sd ed aid).trace.connClosed = false ∧
    (report_trial_balance_by_seg_ref env db sd ed aid).result = .ok ("Error: " ++ pyErrStr e2) ∧
    (read_table_preview env db tn).trace.connOpened = true ∧
    (read_table_preview env db tn).trace.connClosed = false ∧
    (read_table_preview env db tn).result =
      .ok ("Error reading table '" ++ tn ++ "': " ++ pyErrStr e3) := by
  refine ⟨?_, ?_, ?_, ?_, ?_, ?_, ?_, ?_, ?_, ?_, ?_, ?_⟩ <;>
    simp [execute_sql, report_trial_balance_by_seg_ref, read_table_preview,
      hcfg, hconn, hres, hraise, hrep, hval, hprev, traceOpenedOn, traceClosedOn]

/-- Witness for close_only_on_success with a driver that succeeds on
"SELECT 1" and raises on everything else. -/
theorem close_only_on_success_witness :
    (execute_sql envCred dbMixed "SELECT 1").trace.cursorClosed = true ∧
    (execute_sql envCred dbMixed "SELECT 1").trace.connClosed = true ∧
    (execute_sql envCred dbMixed "SELECT 2").trace.connOpened = true ∧
    (execute_sql envCred dbMixed "SELECT 2").trace.cursorClosed = false ∧
    (execute_sql envCred dbMixed "SELECT 2").trace.connClosed = false ∧
    (execute_sql envCred dbMixed "SELECT 2").result = .ok ("Error executing query: " ++ pyErrStr (.dbError "boom")) ∧
    (report_trial_balance_by_seg_ref envCred dbMixed "2024-01-01" "2024-12-31" "7206%").trace.connOpened = true ∧
    (report_trial_balance_by_seg_ref envCred dbMixed "2024-01-01" "2024-12-31" "7206%").trace.connClosed = false ∧
    (report_trial_balance_by_seg_ref envCred dbMixed "2024-01-01" "2024-12-31" "7206%").result = .ok ("Error: " ++ pyErrStr (.dbError "boom")) ∧
    (read_table_preview envCred dbMixed "dbo.tbl").trace.connOpened = true ∧
    (read_table_preview envCred dbMixed "dbo.tbl").trace.connClosed = false ∧
    (read_table_preview envCred dbMixed "dbo.tbl").result =
      .ok ("Error reading table '" ++ "dbo.tbl" ++ "': " ++ pyErrStr (.dbError "boom")) :=
  close_only_on_success envCred cfgCred dbMixed "SELECT 1" "SELECT 2"
    "2024-01-01" "2024-12-31" "7206%" "dbo.tbl" "[dbo].[tbl]" qrEmpty
    (.dbError "boom") (.dbError "boom") (.dbError "boom")
    (by decide) (by decide) (by decide) (by decide) (by decide) (by decide) (by decide)

/-- Claim C4 (confirmed).  Under a resolvable configuration, a table name
the validator rejects makes read_table_preview return an error string that
embeds the original invalid name, and no connection is ever attempted. -/
theorem invalid_table_name_no_connect (env : Env) (cfg : DbConfig) (db : Db) (tn : String)
    (hcfg : get_db_config env = .ok cfg)
    (hval : pyMatchTableName tn = false) :
    (read_table_preview env db tn).result =
      .ok ("Error reading table '" ++ tn ++ "': " ++ ("Invalid table name: " ++ tn)) ∧
    (read_table_preview env db tn).trace.connectAttempted = false ∧
    (read_table_preview env db tn).trace.connOpened = false := by
  have hv : validate_table_name tn = .error (.valueError ("Invalid table name: " ++ tn)) := by
    simp [validate_table_name, hval]
  refine ⟨?_, ?_, ?_⟩ <;> simp [read_table_preview, hcfg, hv, pyErrStr]

/-- Witness for invalid_table_name_no_connect at the spec's example name. -/
theorem invalid_table_name_no_connect_witness :
    (read_table_preview envCred dbBoom "1bad name").result =
      .ok "Error reading table '1bad name': Invalid table name: 1bad name" ∧
    (read_table_preview envCred dbBoom "1bad name").trace.connectAttempted = false ∧
    (read_table_preview envCred dbBoom "1bad name").trace.connOpened = false :=
  invalid_table_name_no_connect envCred cfgCred dbBoom "1bad name" (by decide) (by decide)

/-- Claim C7 (confirmed).  On a zero-row result set, execute_sql returns the
header-only line, while read_table_preview and list_sql_tables return their
sentinel strings instead. -/
theorem zero_row_outputs (env : Env) (cfg : DbConfig) (db : Db)
    (q tn st : String) (qr : QueryResult) (c : String) (cols : List String)
    (hcfg : get_db_config env = .ok cfg)
    (hconn : db.connectErr cfg = Option.none)
    (hexec : ∀ stmt ps, db.exec stmt ps = .result qr)
    (hdesc : qr.description = some (c :: cols))
    (hrows : qr.rows = [])
    (hval : validate_table_name tn = .ok st) :
    (execute_sql env db q).result = .ok (joinStr "," (c :: cols)) ∧
    (read_table_preview env db tn).result = .ok "No data found in this table." ∧
    (list_sql_tables env db).result = .ok "No tables found in this database." := by
  refine ⟨?_, ?_, ?_⟩
  · simp [execute_sql, hcfg, hconn, hexec, hdesc, hrows, formatRows, joinStr]
  · simp [read_table_preview, hcfg, hval, hconn, hexec, hdesc, hrows]
  · simp [list_sql_tables, hcfg, hconn, hexec, hrows]

/-- Witness for zero_row_outputs on an empty two-column result. -/
theorem zero_row_outputs_witness :
    (execute_sql envCred dbEmptySelect "SELECT 1").result = .ok (joinStr "," ("a" :: ["b"])) ∧
    (read_table_preview envCred dbEmptySelect "dbo.tbl").result = .ok "No data found in this table." ∧
    (list_sql_tables envCred dbEmptySelect).result = .ok "No tables found in this database." :=
  zero_row_outputs envCred cfgCred dbEmptySelect "SELECT 1" "dbo.tbl" "[dbo].[tbl]"
    qrEmpty "a" ["b"] (by decide) (by decide) (fun _ _ => rfl) (by decide) (by decide) (by decide)

/-- Claim C9 counterexample.  With MSSQL_PORT set to "70000" resolution
succeeds and the resolved port is 70000, outside 1..65535: the code never
range-checks the port. -/
theorem port_above_range :
    get_db_config envPortBig =
      .ok { server := "localhost", user := some "sa", password := some "pw",
            database := "db", port := 70000 } ∧
    ¬((1 : Int) ≤ 70000 ∧ (70000 : Int) ≤ 65535) := ⟨by decide, by decide⟩

/-- Case analysis of a successful configuration resolution: the port parsed,
and either the Windows-auth branch or the credentialed branch built cfg. -/
theorem get_db_config_ok_cases (env : Env) (cfg : DbConfig)
    (h : get_db_config env = .ok cfg) :
    ∃ port, pyInt (env.MSSQL_PORT.getD "1433") = some port ∧
      ((useWindowsAuth env = true ∧ ∃ db, env.MSSQL_DATABASE = some db ∧ db ≠ "" ∧
          cfg = { server := resolveServer env, user := Option.none,
                  password := Option.none, database := db, port := port }) ∨
       (useWindowsAuth env = false ∧
          ∃ u p db, env.MSSQL_USER = some u ∧ env.MSSQL_PASSWORD = some p ∧
            env.MSSQL_DATABASE = some db ∧ u ≠ "" ∧ p ≠ "" ∧ db ≠ "" ∧
            cfg = { server := resolveServer env, user := some u,
                    password := some p, database := db, port := port })) := by
  simp only [get_db_config] at h
  split at h
  next => exact absurd h (by simp)
  next port hp =>
    refine ⟨port, hp, ?_⟩
    split at h
    next hw =>
      split at h
      next db hdb =>
        split at h
        next => exact absurd h (by simp)
        next hdbe =>
          simp only [Except.ok.injEq] at h
          exact Or.inl ⟨hw, db, hdb, hdbe, h.symm⟩
      next hdb => exact absurd h (by simp)
    next hw =>
      split at h
      next u p db hu hpw hdb =>
        split at h
        next => exact absurd h (by simp)
        next hc =>
          push_neg at hc
          simp only [Except.ok.injEq] at h
          exact Or.inr ⟨by simpa using hw, u, p, db, hu, hpw, hdb,
            hc.1, hc.2.1, hc.2.2, h.symm⟩
      next => exact absurd h (by simp)

/-- Claim C9 (corrected).  Whenever resolution succeeds, the resolved port
is int() of the MSSQL_PORT variable and defaults to 1433 when it is unset;
there is no range restriction. -/
theorem port_from_env (env : Env) (cfg : DbConfig) (h : get_db_config env = .ok cfg) :
    pyInt (env.MSSQL_PORT.getD "1433") = some cfg.port ∧
    (env.MSSQL_PORT = Option.none → cfg.port = 1433) := by
  obtain ⟨port, hp, hcase⟩ := get_db_config_ok_cases env cfg h
  have hport : cfg.port = port := by
    rcases hcase with ⟨_, db, _, _, rfl⟩ | ⟨_, u, p, db, _, _, _, _, _, _, rfl⟩ <;> rfl
  constructor
  · rw [hport]
    exact hp
  · intro hnone
    rw [hnone] at hp
    rw [show pyInt ((Option.none : Option String).getD "1433") = some 1433 by decide] at hp
    rw [hport]
    exact (Option.some.inj hp).symm

/-- Witness for port_from_env at a concrete credentialed environment. -/
theorem port_from_env_witness :
    pyInt (envCred.MSSQL_PORT.getD "1433") = some cfgCred.port ∧
    (envCred.MSSQL_PORT = Option.none → cfgCred.port = 1433) :=
  port_from_env envCred cfgCred (by decide)

/-- Claim C5 (confirmed).  Every successfully resolved configuration
satisfies the auth-mode invariant: under the integrated-auth flag the user
and password keys are absent and the database is non-empty; otherwise user,
password and database are all present and non-empty, and the corresponding
environment variables were all set and non-empty. -/
theorem config_auth_invariant (env : Env) (cfg : DbConfig) (h : get_db_config env = .ok cfg) :
    (useWindowsAuth env = true →
      cfg.user = Option.none ∧ cfg.password = Option.none ∧ cfg.database ≠ "") ∧
    (useWindowsAuth env = false →
      truthy cfg.user = true ∧ truthy cfg.password = true ∧ cfg.database ≠ "" ∧
      credsPresent env = true) := by
  obtain ⟨port, hp, hcase⟩ := get_db_config_ok_cases env cfg h
  rcases hcase with ⟨hw, db, hdb, hne, rfl⟩ |
    ⟨hw, u, p, db, hu, hpw, hdb, hune, hpne, hdne, rfl⟩
  · refine ⟨fun _ => ⟨rfl, rfl, hne⟩, fun hwf => ?_⟩
    rw [hw] at hwf
    cases hwf
  · refine ⟨fun hwt => ?_, fun _ => ?_⟩
    · rw [hw] at hwt
      cases hwt
    · refine ⟨by simp [truthy, hune], by simp [truthy, hpne], hdne, ?_⟩
      simp [credsPresent, truthy, hu, hpw, hdb, hune, hpne, hdne]

/-- Witness for config_auth_invariant at both authentication modes. -/
theorem config_auth_invariant_witness :
    (cfgWin.user = Option.none ∧ cfgWin.password = Option.none ∧ cfgWin.database ≠ "") ∧
    (truthy cfgCred.user = true ∧ truthy cfgCred.password = true ∧ cfgCred.database ≠ "" ∧
      credsPresent envCred = true) :=
  ⟨(config_auth_invariant envWin cfgWin (by decide)).1 (by decide),
   (config_auth_invariant envCred cfgCred (by decide)).2 (by decide)⟩

/-- Claim C8 counterexample.  Both configuration failure modes raise
ValueError with the same message "Missing required database configuration",
which is neither "missing database" nor "missing credentials". -/
theorem config_failure_message_not_distinct :
    get_db_config envWinNoDb = .error (.valueError "Missing required database configuration") ∧
    get_db_config envNone = .error (.valueError "Missing required database configuration") ∧
    "Missing required database configuration" ≠ "missing database" ∧
    "Missing required database configuration" ≠ "missing credentials" := by
  refine ⟨?_, ?_, ?_, ?_⟩ <;> decide

/-- Claim C8 (corrected).  Provided the port variable parses as an int (the
int() conversion precedes both checks), a missing database under integrated
auth and missing credentials under credentialed auth each raise ValueError
with the identical message "Missing required database configuration". -/
theorem config_failure_same_message (env : Env)
    (hport : pyInt (env.MSSQL_PORT.getD "1433") ≠ Option.none) :
    (useWindowsAuth env = true → truthy env.MSSQL_DATABASE = false →
      get_db_config env = .error (.valueError "Missing required database configuration")) ∧
    (useWindowsAuth env = false → credsPresent env = false →
      get_db_config env = .error (.valueError "Missing required database configuration")) := by
  rcases hp : pyInt (env.MSSQL_PORT.getD "1433") with _ | port
  · exact absurd hp hport
  · constructor
    · intro hw hdb
      rcases hdbe : env.MSSQL_DATABASE with _ | s
      · simp [get_db_config, hp, hw, hdbe]
      · have hs : s = "" := by
          rw [hdbe] at hdb
          simpa [truthy] using hdb
        simp [get_db_config, hp, hw, hdbe, hs]
    · intro hw hcred
      rcases hu : env.MSSQL_USER with _ | u <;>
        rcases hpw : env.MSSQL_PASSWORD with _ | p <;>
        rcases hdbe : env.MSSQL_DATABASE with _ | s <;>
        simp [get_db_config, hp, hw, hu, hpw, hdbe]
      intro hu2 hp2
      simp [credsPresent, truthy, hu, hpw, hdbe] at hcred
      tauto

/-- Witness for config_failure_same_message in both failure modes. -/
theorem config_failure_same_message_witness :
    get_db_config envWinNoDb = .error (.valueError "Missing required database configuration") ∧
    get_db_config envNone = .error (.valueError "Missing required database configuration") :=
  ⟨(config_failure_same_message envWinNoDb (by decide)).1 (by decide) (by decide),
   (config_failure_same_message envNone (by decide)).2 (by decide) (by decide)⟩

/-! Lemmas for the table-name pattern: the char-by-char regex matcher of the
source equals the split-into-segments reading of the claimed pattern. -/

theorem matchWordStar_eq_all (cs : List Char) : matchWordStar cs = cs.all isWordChar := by
  induction cs with
  | nil => rfl
  | cons c cs ih => simp [matchWordStar, ih]

theorem matchSecondSeg_eq_wordSeg (cs : List Char) : matchSecondSeg cs = wordSeg cs := by
  cases cs with
  | nil => rfl
  | cons c cs => simp [matchSecondSeg, wordSeg, matchWordStar_eq_all]

theorem splitOnDot_ne_nil (cs : List Char) : splitOnDot cs ≠ [] := by
  cases cs with
  | nil => simp [splitOnDot]
  | cons c cs =>
    simp only [splitOnDot]
    split
    · simp
    · split <;> simp

theorem splitOnDot_singleton : ∀ (cs g : List Char), splitOnDot cs = [g] → g = cs := by
  intro cs
  induction cs with
  | nil =>
    intro g h
    simp [splitOnDot] at h
    exact h
  | cons c cs ih =>
    intro g h
    simp only [splitOnDot] at h
    by_cases hc : c = '.'
    · rw [if_pos hc] at h
      have hnil : splitOnDot cs = [] := by
        cases hsp : splitOnDot cs with
        | nil => rfl
        | cons a as =>
          rw [hsp] at h
          simp at h
      exact absurd hnil (splitOnDot_ne_nil cs)
    · rw [if_neg hc] at h
      cases hsp : splitOnDot cs with
      | nil => exact absurd hsp (splitOnDot_ne_nil cs)
      | cons a as =>
        rw [hsp] at h
        cases as with
        | nil =>
          have ha : a = cs := ih a hsp
          have hg : g = c :: a := by simpa using h.symm
          rw [hg, ha]
        | cons b bs => simp at h

theorem all_word_splitOnDot (cs : List Char) (h : cs.all isWordChar = true) :
    splitOnDot cs = [cs] := by
  induction cs with
  | nil => rfl
  | cons c cs ih =>
    simp only [List.all_cons, Bool.and_eq_true] at h
    have hc : ¬ c = '.' := by
      intro e
      rw [e] at h
      exact absurd h.1 (by decide)
    simp only [splitOnDot, if_neg hc, ih h.2]

theorem splitOnDot_length (cs : List Char) :
    (splitOnDot cs).length = cs.count '.' + 1 := by
  induction cs with
  | nil => simp [splitOnDot]
  | cons c cs ih =>
    by_cases hc : c = '.'
    · subst hc
      simp [splitOnDot, ih, List.count_cons]
    · simp only [splitOnDot, if_neg hc]
      cases hsp : splitOnDot cs with
      | nil => exact absurd hsp (splitOnDot_ne_nil cs)
      | cons a as =>
        rw [hsp] at ih
        simp only [List.length_cons] at ih ⊢
        simp [List.count_cons, hc]
        omega

theorem count_dropTrailingNewline (cs : List Char) :
    (dropTrailingNewline cs).count '.' = cs.count '.' := by
  induction cs with
  | nil => rfl
  | cons c cs ih =>
    cases cs with
    | nil =>
      by_cases h : c = '\n'
      · subst h
        simp [dropTrailingNewline]
      · simp [dropTrailingNewline, h]
    | cons d ds =>
      simp only [dropTrailingNewline, List.count_cons, ih]

theorem matchAfterFirst_eq (cs : List Char) :
    matchAfterFirst cs =
      (match splitOnDot cs with
       | [a] => a.all isWordChar
       | [a, b] => a.all isWordChar && wordSeg b
       | _ => false) := by
  induction cs with
  | nil => rfl
  | cons c cs ih =>
    by_cases hw : isWordChar c = true
    · have hc : ¬ c = '.' := by
        intro e
        rw [e] at hw
        exact absurd hw (by decide)
      have lhs : matchAfterFirst (c :: cs) = matchAfterFirst cs := by
        simp [matchAfterFirst, hw]
      cases hsp : splitOnDot cs with
      | nil => exact absurd hsp (splitOnDot_ne_nil cs)
      | cons a as =>
        have hsplit : splitOnDot (c :: cs) = (c :: a) :: as := by
          simp [splitOnDot, hc, hsp]
        rw [lhs, ih, hsp, hsplit]
        cases as with
        | nil => simp [List.all_cons, hw]
        | cons b bs => cases bs <;> simp [List.all_cons, hw]
    · by_cases hc : c = '.'
      · subst hc
        have lhs : matchAfterFirst ('.' :: cs) = matchSecondSeg cs := by
          simp [matchAfterFirst, show isWordChar '.' = false by decide]
        have hsplit : splitOnDot ('.' :: cs) = [] :: splitOnDot cs := by
          simp [splitOnDot]
        rw [lhs, matchSecondSeg_eq_wordSeg, hsplit]
        cases hsp : splitOnDot cs with
        | nil => exact absurd hsp (splitOnDot_ne_nil cs)
        | cons a as =>
          cases as with
          | nil =>
            have ha : a = cs := splitOnDot_singleton cs a hsp
            simp [wordSeg, ha]
          | cons b bs =>
            have hallf : cs.all isWordChar = false := by
              rcases hall : cs.all isWordChar with _ | _
              · rfl
              · rw [all_word_splitOnDot cs hall] at hsp
                simp at hsp
            cases bs <;> simp [wordSeg, hallf]
      · have hwf : isWordChar c = false := by simpa using hw
        have lhs : matchAfterFirst (c :: cs) = false := by
          simp [matchAfterFirst, hwf, hc]
        cases hsp : splitOnDot cs with
        | nil => exact absurd hsp (splitOnDot_ne_nil cs)
        | cons a as =>
          have hsplit : splitOnDot (c :: cs) = (c :: a) :: as := by
            simp [splitOnDot, hc, hsp]
          rw [lhs, hsplit]
          have hca : (c :: a).all isWordChar = false := by
            simp [List.all_cons, hwf]
          cases as with
          | nil => simp [hca]
          | cons b bs => cases bs <;> simp [hca]

theorem matchTableCore_eq_spec (cs : List Char) :
    matchTableCore cs = specTablePattern cs := by
  cases cs with
  | nil => rfl
  | cons c cs =>
    by_cases hw : isWordChar c = true
    · have hc : ¬ c = '.' := by
        intro e
        rw [e] at hw
        exact absurd hw (by decide)
      have lhs : matchTableCore (c :: cs) = matchAfterFirst cs := by
        simp [matchTableCore, hw]
      rw [lhs, matchAfterFirst_eq]
      cases hsp : splitOnDot cs with
      | nil => exact absurd hsp (splitOnDot_ne_nil cs)
      | cons a as =>
        have hsplit : splitOnDot (c :: cs) = (c :: a) :: as := by
          simp [splitOnDot, hc, hsp]
        simp only [specTablePattern, hsplit]
        cases as with
        | nil => simp [wordSeg, List.all_cons, hw]
        | cons b bs => cases bs <;> simp [wordSeg, List.all_cons, hw]
    · have hwf : isWordChar c = false := by simpa using hw
      have lhs : matchTableCore (c :: cs) = false := by
        simp [matchTableCore, hwf]
      rw [lhs]
      by_cases hc : c = '.'
      · subst hc
        have hsplit : splitOnDot ('.' :: cs) = [] :: splitOnDot cs := by
          simp [splitOnDot]
        simp only [specTablePattern, hsplit]
        cases hsp : splitOnDot cs with
        | nil => exact absurd hsp (splitOnDot_ne_nil cs)
        | cons a as =>
          cases as with
          | nil => simp [wordSeg]
          | cons b bs => cases bs <;> simp [wordSeg]
      · cases hsp : splitOnDot cs with
        | nil => exact absurd hsp (splitOnDot_ne_nil cs)
        | cons a as =>
          have hsplit : splitOnDot (c :: cs) = (c :: a) :: as := by
            simp [splitOnDot, hc, hsp]
          simp only [specTablePattern, hsplit]
          have hca : wordSeg (c :: a) = false := by
            simp [wordSeg, List.all_cons, hwf]
          cases as with
          | nil => simp [hca]
          | cons b bs => cases bs <;> simp [hca]

theorem toList_mk (l : List Char) : (String.mk l).toList = l := rfl

theorem mk_toList (s : String) : String.mk s.toList = s := rfl

/-- Claim C3 counterexample.  The string "a\n" contains whitespace and does
not match the claimed strictly anchored pattern, yet validate_table_name
accepts it and produces "[a\n]": Python re lets the final `$` of the
pattern match just before one trailing newline. -/
theorem validate_accepts_trailing_newline :
    validate_table_name "a\n" = .ok "[a\n]" ∧ specTableMatch "a\n" = false := by
  refine ⟨?_, ?_⟩ <;> decide

/-- Claim C3 (corrected).  validate_table_name succeeds exactly when the
string, after removing at most one trailing newline (Python `$`
semantics), matches the pattern of one or two dot-separated word-character
segments; on success it returns every dot-split segment wrapped in
brackets and rejoined with dots, and on failure it raises ValueError
carrying the original name.  "dbo.accounts" gives "[dbo].[accounts]" and
"accounts; DROP TABLE x" fails. -/
theorem validate_table_name_spec (s : String) :
    (exceptIsOk (validate_table_name s) = specTableMatch (stripTrailingNewline s)) ∧
    (specTableMatch (stripTrailingNewline s) = true →
      validate_table_name s = .ok (specBracketForm s)) ∧
    (specTableMatch (stripTrailingNewline s) = false →
      validate_table_name s = .error (.valueError ("Invalid table name: " ++ s))) := by
  have hb : pyMatchTableName s = specTableMatch (stripTrailingNewline s) := by
    unfold pyMatchTableName specTableMatch stripTrailingNewline
    rw [matchTableCore_eq_spec]
    rfl
  refine ⟨?_, ?_, ?_⟩
  · rw [← hb]
    cases hm : pyMatchTableName s with
    | true =>
      rcases hps : pySplitDot s with _ | ⟨a, _ | ⟨b, _ | ⟨c2, t⟩⟩⟩ <;>
        simp [validate_table_name, hm, exceptIsOk, hps]
    | false => simp [validate_table_name, hm, exceptIsOk]
  · intro ht
    have hm : pyMatchTableName s = true := by rw [hb]; exact ht
    have hts : specTablePattern (dropTrailingNewline s.toList) = true := ht
    have hlen2 : (splitOnDot (dropTrailingNewline s.toList)).length ≤ 2 := by
      unfold specTablePattern at hts
      rcases hsp : splitOnDot (dropTrailingNewline s.toList) with _ | ⟨a, _ | ⟨b, _ | ⟨c2, t⟩⟩⟩ <;>
        rw [hsp] at hts <;> simp_all
    have hlen : (splitOnDot s.toList).length ≤ 2 := by
      have h1 := splitOnDot_length (dropTrailingNewline s.toList)
      have h2 := splitOnDot_length s.toList
      have h3 := count_dropTrailingNewline s.toList
      omega
    rcases hsp : splitOnDot s.toList with _ | ⟨a, rest⟩
    · exact absurd hsp (splitOnDot_ne_nil _)
    · cases rest with
      | nil =>
        have ha : a = s.toList := splitOnDot_singleton _ _ hsp
        have hps : pySplitDot s = [String.mk a] := by
          have hsp2 : splitOnDot s.data = [a] := hsp
          simp [pySplitDot, hsp2]
        have hform : specBracketForm s = "[" ++ s ++ "]" := by
          simp [specBracketForm, hps, joinStr, ha, mk_toList]
        simp [validate_table_name, hm, hps, hform]
      | cons b rest2 =>
        cases rest2 with
        | nil =>
          have hps : pySplitDot s = [String.mk a, String.mk b] := by
            have hsp2 : splitOnDot s.data = [a, b] := hsp
            simp [pySplitDot, hsp2]
          have hform : specBracketForm s =
              "[" ++ String.mk a ++ "].[" ++ String.mk b ++ "]" := by
            simp only [specBracketForm, hps, List.map_cons, List.map_nil, joinStr]
            apply String.ext
            simp [String.data_append]
          rw [hform]
          simp [validate_table_name, hm, hps]
        | cons c2 rest3 =>
          rw [hsp] at hlen
          simp at hlen
  · intro hf
    have hm : pyMatchTableName s = false := by rw [hb]; exact hf
    simp [validate_table_name, hm]

/-- Witness for validate_table_name_spec at the two example names of the
claim. -/
theorem validate_table_name_spec_witness :
    validate_table_name "dbo.accounts" = .ok (specBracketForm "dbo.accounts") ∧
    validate_table_name "accounts; DROP TABLE x" =
      .error (.valueError ("Invalid table name: " ++ "accounts; DROP TABLE x")) :=
  ⟨(validate_table_name_spec "dbo.accounts").2.1 (by decide),
   (validate_table_name_spec "accounts; DROP TABLE x").2.2 (by decide)⟩
